import Mathlib

/-!
Verification of the streaming text-generation client with bounded
conversational context (`src/cli/local-ai.py`).

The embedding models:
* the module constants `OLLAMA_API` and `MODEL` (lines 18-19);
* `generate_text` (lines 29-60): the full-prompt construction (line 32),
  the HTTP request it issues (lines 35-46, as a `GenRequest` record; the
  floating-point fields `temperature` and `top_p` of the JSON body are
  not modelled), and the fragment sequence it yields (lines 48-60),
  parameterised by the backend behaviour (`BackendResult`);
* `interactive_chat` (lines 168-217): one loop iteration (`chatStep`,
  lines 179-215) and the whole loop (`runChat`), over a trace of input
  events (`ChatInput`).

Machine-level I/O (printing, stdin) is abstracted away: an input event
carries the line the user typed and the outcome of the generation that
iteration, and a step reports the resulting history, whether the loop
continues, and the backend request issued (if any).
-/

/-- A recorded exchange: one entry of `conversation_history`
(`\x7b"human": ..., "assistant": ...\x7d`, lines 208-211). -/
structure Turn where
  human : String
  assistant : String
deriving DecidableEq, Repr

/-- Line 18: `OLLAMA_API = "http://127.0.0.1:11434/api/generate"`. -/
def OLLAMA_API : String := "http://127.0.0.1:11434/api/generate"

/-- Line 19: `MODEL = "mistral"`. -/
def MODEL : String := "mistral"

/-- Line 32: `full_prompt = f"\x7bcontext\x7d\n\n\x7bprompt\x7d" if context else prompt`.
Python truthiness of a string is non-emptiness. -/
def full_prompt (prompt context : String) : String :=
  if context = "" then prompt else context ++ "\n\n" ++ prompt

/-- The HTTP request issued by `generate_text` (lines 35-46): method,
URL and the modelled JSON-body fields (`model`, `prompt`, `stream`). -/
structure GenRequest where
  method : String
  url : String
  model : String
  prompt : String
  stream : Bool
deriving DecidableEq, Repr

/-- Lines 35-46: `requests.post(OLLAMA_API, json=\x7b"model": MODEL,
"prompt": full_prompt, "stream": True, ...\x7d, stream=True)`. -/
def mkRequest (prompt context : String) : GenRequest :=
  ⟨"POST", OLLAMA_API, MODEL, full_prompt prompt context, true⟩

/-- One line of the backend response body, classified by how lines 49-54
treat it: a falsy (empty) line, a line on which `json.loads` raises
`JSONDecodeError`, or a parsed JSON record with or without a
`"response"` field. -/
inductive RawLine where
  | empty : RawLine
  | malformed : RawLine
  | record : Option String → RawLine
deriving DecidableEq, Repr

/-- Lines 48-55: the fragments yielded while iterating `iter_lines()`:
empty lines are skipped (line 49), malformed lines are skipped by the
`except JSONDecodeError: continue` (lines 54-55), records without a
`"response"` field yield nothing (line 52), records with one yield it
(line 53). -/
def parseFragments : List RawLine → List String
  | [] => []
  | RawLine.empty :: rest => parseFragments rest
  | RawLine.malformed :: rest => parseFragments rest
  | RawLine.record none :: rest => parseFragments rest
  | RawLine.record (some s) :: rest => s :: parseFragments rest

/-- The behaviour of the backend for one `generate_text` call: either the
stream is delivered and drained in full, or a
`requests.exceptions.ConnectionError` is raised after some lines were
already delivered (the unreachable-backend case is `connError []`), or
some other exception is raised after some lines. -/
inductive BackendResult where
  | ok : List RawLine → BackendResult
  | connError : List RawLine → BackendResult
  | otherError : List RawLine → String → BackendResult
deriving DecidableEq, Repr

/-- Lines 48-60 of `generate_text`: the complete fragment sequence the
generator yields for a given backend behaviour.  The `try` block spans
the request and the iteration, so an exception raised after some lines
were consumed still lets the already-yielded fragments stand; a
`ConnectionError` is answered with the two fragments of lines 57-58 and
any other exception with the single fragment of line 60.  No exception
escapes the generator. -/
def generate_text : BackendResult → List String
  | BackendResult.ok lines => parseFragments lines
  | BackendResult.connError lines =>
      parseFragments lines ++
        ["❌ Ollama sunucusu çalışmıyor!\n", "Terminal\x27de çalıştır: ollama serve\n"]
  | BackendResult.otherError lines msg =>
      parseFragments lines ++ ["❌ Error: " ++ msg ++ "\n"]

/-- Line 194: one entry of the rendered context,
`f"Human: \x7bmsg[\x27human\x27]\x7d\nAssistant: \x7bmsg[\x27assistant\x27]\x7d"`. -/
def renderTurn (t : Turn) : String :=
  "Human: " ++ t.human ++ "\nAssistant: " ++ t.assistant

/-- Lines 193-196: `context = "\n".join(... for msg in
conversation_history[-5:])`.  Python `l[-5:]` is the last five elements,
or all of them when fewer exist, i.e. `l.drop (l.length - 5)`. -/
def renderContext (h : List Turn) : String :=
  String.intercalate "\n" ((h.drop (h.length - 5)).map renderTurn)

/-- Python `str.lower()`, used by the command comparisons of lines 183
and 187: lowercases each character (`Char.toLower`; faithful on the
ASCII command words compared against). -/
def pyLower (s : String) : String :=
  String.mk (s.data.map Char.toLower)

/-- The generation phase of one loop iteration: either the fragment
stream was drained to the end (lines 201-203 ran to completion with
backend behaviour `res`), or a `KeyboardInterrupt` arrived mid-stream
after the listed fragments had been consumed. -/
inductive GenOutcome where
  | completed : BackendResult → GenOutcome
  | interrupted : List String → GenOutcome
deriving DecidableEq, Repr

/-- One event consumed by the loop body (lines 180-215): either a
`KeyboardInterrupt` raised at the blocking `input()` (line 181), or a
line of user input together with the outcome of the generation that
would follow it. -/
inductive ChatInput where
  | interruptAtRead : ChatInput
  | line : String → GenOutcome → ChatInput
deriving DecidableEq, Repr

/-- The observable result of one loop iteration: the history afterwards,
whether the `while True` loop continues, and the backend request issued
during the iteration, if any. -/
structure StepResult where
  history : List Turn
  cont : Bool
  request : Option GenRequest
deriving DecidableEq, Repr

/-- Lines 179-215, one iteration of `interactive_chat`:
`exit` (case-insensitive, line 183) breaks; `clear` (line 187) empties
the history and continues; any other line renders the context
(lines 193-196), issues the request, accumulates every yielded chunk
into `full_response` (lines 199-203) and appends the turn (lines
208-211).  A `KeyboardInterrupt` (line 213) breaks without recording. -/
def chatStep (h : List Turn) : ChatInput → StepResult
  | ChatInput.interruptAtRead => ⟨h, false, none⟩
  | ChatInput.line s gen =>
      if pyLower s = "exit" then ⟨h, false, none⟩
      else if pyLower s = "clear" then ⟨[], true, none⟩
      else
        let req := mkRequest s (renderContext h)
        match gen with
        | GenOutcome.completed res =>
            let full_response := (generate_text res).foldl (fun acc c => acc ++ c) ""
            ⟨h ++ [⟨s, full_response⟩], true, some req⟩
        | GenOutcome.interrupted _ => ⟨h, false, some req⟩

/-- The whole interactive loop: `conversation_history = []` then the
`while True` loop (lines 177-215), run over a trace of input events;
stops when an iteration breaks or the trace ends. -/
def runChat (h : List Turn) : List ChatInput → List Turn
  | [] => h
  | e :: rest =>
      let r := chatStep h e
      if r.cont then runChat r.history rest else r.history

/-! ### Shared helper lemmas -/

/-- Removing a line that contributes no fragment leaves the parse
unchanged. -/
theorem parseFragments_skip (pre post : List RawLine) (x : RawLine)
    (hx : x = RawLine.malformed ∨ x = RawLine.record none ∨ x = RawLine.empty) :
    parseFragments (pre ++ x :: post) = parseFragments (pre ++ post) := by
  induction pre with
  | nil =>
      rcases hx with h | h | h <;> subst h <;> rfl
  | cons a pre ih =>
      cases a with
      | empty => simpa [parseFragments] using ih
      | malformed => simpa [parseFragments] using ih
      | record r => cases r <;> simp [parseFragments, ih]

/-- The running accumulation `full_response += chunk` of lines 199-203 is
exactly the concatenation of all fragments. -/
theorem foldl_append_eq_join (l : List String) :
    l.foldl (fun acc c => acc ++ c) "" = String.join l := rfl

/-! ### Claims -/

/-- C2 counterexample: the claim says the unreachable-backend sequence
has exactly one fragment; on the code it has two (lines 57-58). -/
theorem c2_counterexample :
    (generate_text (BackendResult.connError [])).length ≠ 1 := by decide

/-- C2 (amended): if the backend is unreachable (connection refused
before any data arrives), `generate_text` yields exactly two diagnostic
text fragments — the failure notice and the instruction to start the
backend — and then ends; no exception reaches the caller (the modelled
generator is a total function into a fragment list). -/
theorem c2_two_diagnostic_fragments :
    generate_text (BackendResult.connError []) =
      ["❌ Ollama sunucusu çalışmıyor!\n", "Terminal\x27de çalıştır: ollama serve\n"] := rfl

/-- C3: for every history of N turns, `renderContext` renders exactly
the last `min N 5` turns — a suffix of the history, hence in
chronological order with the most recent last — each as the pair
"Human: ...\nAssistant: ..." and joined by newlines; the empty history
renders to the empty string, and the singleton history
`("hi", "hello")` renders to "Human: hi\nAssistant: hello". -/
theorem c3_render_context (h : List Turn) :
    (h.drop (h.length - 5)).length = min h.length 5
    ∧ (h.drop (h.length - 5)) <:+ h
    ∧ renderContext h =
        String.intercalate "\n" ((h.drop (h.length - 5)).map renderTurn)
    ∧ renderContext [] = ""
    ∧ renderContext [⟨"hi", "hello"⟩] = "Human: hi\nAssistant: hello" := by
  refine ⟨?_, ⟨h.take (h.length - 5), List.take_append_drop _ h⟩, rfl, rfl, ?_⟩
  · rw [List.length_drop]
    omega
  · decide

/-- C5: `generate_text` on a delivered stream yields the same fragments
when a malformed line is inserted among the lines as when it is absent,
and a valid record lacking a "response" field likewise contributes no
fragment and causes no error. -/
theorem c5_malformed_skipped (pre post : List RawLine) :
    generate_text (BackendResult.ok (pre ++ RawLine.malformed :: post)) =
      generate_text (BackendResult.ok (pre ++ post))
    ∧ generate_text (BackendResult.ok (pre ++ RawLine.record none :: post)) =
      generate_text (BackendResult.ok (pre ++ post)) := by
  constructor <;>
    simp only [generate_text] <;>
    apply parseFragments_skip <;> simp

/-- C8: the full prompt sent to the backend is the prompt unmodified
when the context is empty, and context ++ "\n\n" ++ prompt when the
context is non-empty (line 32). -/
theorem c8_full_prompt (prompt context : String) :
    (context = "" → full_prompt prompt context = prompt)
    ∧ (context ≠ "" → full_prompt prompt context = context ++ "\n\n" ++ prompt) := by
  constructor <;> intro hc <;> simp [full_prompt, hc]

/-- C8 witness: both branches at concrete inputs. -/
theorem c8_full_prompt_witness :
    full_prompt "how are you" "" = "how are you"
    ∧ full_prompt "how are you" "Human: hi\nAssistant: hello" =
        "Human: hi\nAssistant: hello" ++ "\n\n" ++ "how are you" :=
  ⟨(c8_full_prompt "how are you" "").1 rfl,
   (c8_full_prompt "how are you" "Human: hi\nAssistant: hello").2 (by decide)⟩

/-- C9 counterexample: the claim says the request URL is the base URL
joined with the path "/generate"; the code posts to
`OLLAMA_API = "http://127.0.0.1:11434/api/generate"` (line 18), which
differs from "http://127.0.0.1:11434" ++ "/generate". -/
theorem c9_counterexample :
    (mkRequest "hello" "").url ≠ "http://127.0.0.1:11434" ++ "/generate" := by decide

/-- C9 (amended): every request issued by `generate_text` is an HTTP
POST to the configured base URL (default http://127.0.0.1:11434) joined
with the "/api/generate" path, and its JSON body contains at least the
configured model name, the full prompt text, and stream set to true
(lines 35-46). -/
theorem c9_request_shape (prompt context : String) :
    (mkRequest prompt context).method = "POST"
    ∧ (mkRequest prompt context).url = "http://127.0.0.1:11434" ++ "/api/generate"
    ∧ (mkRequest prompt context).model = MODEL
    ∧ MODEL = "mistral"
    ∧ (mkRequest prompt context).prompt = full_prompt prompt context
    ∧ (mkRequest prompt context).stream = true :=
  ⟨rfl, rfl, rfl, rfl, rfl, rfl⟩

/-- C1 counterexample: with empty prior history and input "hi", the
backend being unreachable does not leave the history unchanged — the
loop records the failed turn (lines 199-211 run normally on the
diagnostic fragments, then append). -/
theorem c1_counterexample :
    (chatStep []
      (ChatInput.line "hi" (GenOutcome.completed (BackendResult.connError [])))).history
      ≠ ([] : List Turn) := by decide

/-- C1 (amended): when the backend is unreachable or another
transport-level failure occurs during generation, the diagnostics are
delivered as ordinary fragments (no exception reaches the loop), and
the loop DOES record the turn: the history after the failed exchange is
the previous history extended with a turn whose assistant text is the
concatenation of all yielded fragments, diagnostics included. -/
theorem c1_failed_turn_recorded (h : List Turn) (s : String)
    (lines : List RawLine) (msg : String)
    (hx : pyLower s ≠ "exit") (hc : pyLower s ≠ "clear") :
    (chatStep h
      (ChatInput.line s (GenOutcome.completed (BackendResult.connError lines)))).history
      = h ++ [⟨s, String.join (generate_text (BackendResult.connError lines))⟩]
    ∧ (chatStep h
      (ChatInput.line s (GenOutcome.completed (BackendResult.otherError lines msg)))).history
      = h ++ [⟨s, String.join (generate_text (BackendResult.otherError lines msg))⟩] := by
  constructor <;> simp [chatStep, hx, hc, foldl_append_eq_join]

/-- C1 witness: the amended statement at input "hi" on empty history for
both failure kinds. -/
theorem c1_witness :
    (chatStep []
      (ChatInput.line "hi" (GenOutcome.completed (BackendResult.connError [])))).history
      = [] ++ [⟨"hi", String.join (generate_text (BackendResult.connError []))⟩]
    ∧ (chatStep []
      (ChatInput.line "hi" (GenOutcome.completed (BackendResult.otherError [] "boom")))).history
      = [] ++ [⟨"hi", String.join (generate_text (BackendResult.otherError [] "boom"))⟩] :=
  c1_failed_turn_recorded [] "hi" [] "boom" (by decide) (by decide)

/-- C4: for every completed chat turn, the assistant text stored into
history equals the concatenation, in yield order, of all fragments of
that turn's generation — `full_response` is exactly
`String.join` of the fragment list (lines 199-211). -/
theorem c4_round_trip (h : List Turn) (s : String) (res : BackendResult)
    (hx : pyLower s ≠ "exit") (hc : pyLower s ≠ "clear") :
    (chatStep h (ChatInput.line s (GenOutcome.completed res))).history
      = h ++ [⟨s, String.join (generate_text res)⟩] := by
  simp [chatStep, hx, hc, foldl_append_eq_join]

/-- C4 witness: a two-fragment stream "he", "llo" is recorded as
"hello". -/
theorem c4_witness :
    (chatStep [] (ChatInput.line "hi" (GenOutcome.completed (BackendResult.ok
        [RawLine.record (some "he"), RawLine.record (some "llo")])))).history
      = [] ++ [⟨"hi", String.join (generate_text (BackendResult.ok
        [RawLine.record (some "he"), RawLine.record (some "llo")]))⟩] :=
  c4_round_trip [] "hi"
    (BackendResult.ok [RawLine.record (some "he"), RawLine.record (some "llo")])
    (by decide) (by decide)

/-- C6: a `KeyboardInterrupt` during generation leaves the history
unchanged (no partial turn recorded), sets the loop to stop, and the
loop exits with exactly the history of completed exchanges no matter
what input events would have followed. -/
theorem c6_interrupt_terminates (h : List Turn) (s : String)
    (consumed : List String) (rest : List ChatInput)
    (hx : pyLower s ≠ "exit") (hc : pyLower s ≠ "clear") :
    (chatStep h (ChatInput.line s (GenOutcome.interrupted consumed))).history = h
    ∧ (chatStep h (ChatInput.line s (GenOutcome.interrupted consumed))).cont = false
    ∧ runChat h (ChatInput.line s (GenOutcome.interrupted consumed) :: rest) = h := by
  refine ⟨?_, ?_, ?_⟩ <;> simp [runChat, chatStep, hx, hc]

/-- C6 witness: an interrupt after one consumed fragment, with one more
event pending, exits with the prior history intact. -/
theorem c6_witness :
    (chatStep [⟨"a", "b"⟩]
      (ChatInput.line "hi" (GenOutcome.interrupted ["par"]))).history = [⟨"a", "b"⟩]
    ∧ (chatStep [⟨"a", "b"⟩]
      (ChatInput.line "hi" (GenOutcome.interrupted ["par"]))).cont = false
    ∧ runChat [⟨"a", "b"⟩]
        [ChatInput.line "hi" (GenOutcome.interrupted ["par"]),
         ChatInput.line "more" (GenOutcome.completed (BackendResult.ok []))]
      = [⟨"a", "b"⟩] :=
  c6_interrupt_terminates [⟨"a", "b"⟩] "hi" ["par"]
    [ChatInput.line "more" (GenOutcome.completed (BackendResult.ok []))]
    (by decide) (by decide)

/-- C7: the clear command empties the history and the loop continues, so
the context rendered afterwards is the empty string, whatever the prior
history was. -/
theorem c7_reset_renders_empty (h : List Turn) (s : String) (gen : GenOutcome)
    (hc : pyLower s = "clear") :
    renderContext (chatStep h (ChatInput.line s gen)).history = ""
    ∧ (chatStep h (ChatInput.line s gen)).cont = true := by
  have hx : pyLower s ≠ "exit" := by rw [hc]; decide
  have h1 : chatStep h (ChatInput.line s gen) = ⟨[], true, none⟩ := by
    simp [chatStep, hc, hx]
  rw [h1]
  exact ⟨rfl, rfl⟩

/-- C7 witness: clearing a one-turn history renders to the empty
string. -/
theorem c7_witness :
    renderContext (chatStep [⟨"hi", "hello"⟩]
      (ChatInput.line "clear" (GenOutcome.completed (BackendResult.ok [])))).history = ""
    ∧ (chatStep [⟨"hi", "hello"⟩]
      (ChatInput.line "clear" (GenOutcome.completed (BackendResult.ok [])))).cont = true :=
  c7_reset_renders_empty [⟨"hi", "hello"⟩] "clear"
    (GenOutcome.completed (BackendResult.ok [])) (by decide)

/-- C10: the exit and clear commands are matched on the lowercased
input (line 183 and line 187), so any casing of "exit" breaks the loop
and any casing of "clear" empties the history and continues; in both
cases no request is sent to the backend. -/
theorem c10_case_insensitive_commands (h : List Turn) (s : String) (gen : GenOutcome) :
    (pyLower s = "exit" → chatStep h (ChatInput.line s gen) = ⟨h, false, none⟩)
    ∧ (pyLower s = "clear" → chatStep h (ChatInput.line s gen) = ⟨[], true, none⟩) := by
  constructor <;> intro hc <;> simp [chatStep, hc]

/-- C10 witness: "EXIT" breaks the loop and "Clear" empties the
history, neither issuing a request. -/
theorem c10_witness :
    chatStep [⟨"a", "b"⟩]
      (ChatInput.line "EXIT" (GenOutcome.completed (BackendResult.ok [])))
      = ⟨[⟨"a", "b"⟩], false, none⟩
    ∧ chatStep [⟨"a", "b"⟩]
      (ChatInput.line "Clear" (GenOutcome.completed (BackendResult.ok [])))
      = ⟨[], true, none⟩ :=
  ⟨(c10_case_insensitive_commands [⟨"a", "b"⟩] "EXIT"
      (GenOutcome.completed (BackendResult.ok []))).1 (by decide),
   (c10_case_insensitive_commands [⟨"a", "b"⟩] "Clear"
      (GenOutcome.completed (BackendResult.ok []))).2 (by decide)⟩
